import Mathlib

/-!
Verification development for the BifacialSimu spectral albedo handler
(`BifacialSimu/Handler/BifacialSimu_spectralAlbedoHandler.py`).

The development shallowly embeds the two core pieces of the handler:
the view-factor matrix assembly `build_ts_vf_matrix_albedo`, and the
hourly albedo pipeline `calculateAlbedo` (reflectance-weighted ratio R,
direct/diffuse ratio H, view-factor extraction, the albedo formula, the
hour-loop record count, and the weather-file merge).

Numeric conventions: the Python code computes with IEEE floats; the
embedding uses exact arithmetic (ℚ for weather data, matrix entries and
spectra; ℝ where the trigonometric functions of `math` are involved), so
the stated tolerance properties are proved exactly.  The external
pvfactors geometry engine and pandas/csv are modelled through their
interfaces: the engine's matrix-filling methods are opaque function
parameters, and the pandas column-assignment length contract is made
explicit in the merge model.
-/

namespace SpectralAlbedo

/-! ### View-factor matrix assembly (`build_ts_vf_matrix_albedo`)

The source builds a `(n_ts_surfaces + 1) × (n_ts_surfaces + 1)` matrix
(one timestep), fills the real-surface block through the external
pvfactors methods `vf_pvrow_gnd_surf` and `vf_pvrow_to_pvrow`, closes
each real row against the sky column by energy conservation, and zeroes
the sky entry of degenerate (short) surfaces.  The matrix is modelled as
a total function `ℕ → ℕ → ℚ` whose logical extent is rows/columns
`0 … n_ts_surfaces`; the two filling methods are opaque parameters, as
they live in the external pvfactors library. -/

/-- `pvfactors.config.DISTANCE_TOLERANCE` (1e-7), the degeneracy
tolerance used for the sky-view-factor correction. -/
def DISTANCE_TOLERANCE : ℚ := 1 / 10000000

/-- The slice of a pvfactors `OrderedPVArray` that
`build_ts_vf_matrix_albedo` reads: surface count, rotation (one
timestep), the ground- and pvrow-geometry objects (opaque, of types `G`
and `R`), and the lengths of `all_ts_surfaces` in order. -/
structure OrderedPVArrayE (G R : Type) where
  n_ts_surfaces : ℕ
  rotation_vec : ℚ
  ts_ground : G
  ts_pvrows : R
  all_ts_lengths : List ℚ

/-- A single-timestep view-factor matrix; entries outside the logical
`(n+1) × (n+1)` extent are irrelevant. -/
def VFMat := ℕ → ℕ → ℚ

/-- Shallow embedding of `build_ts_vf_matrix_albedo(pvarray_pv,
pvarray_albedo)`: tilt direction from the albedometer array's rotation
sign, a zero-initialised `(n+1)×(n+1)` matrix with
`n = pvarray_albedo.n_ts_surfaces`, filled by
`vf_pvrow_gnd_surf(pvarray_albedo.ts_pvrows, pvarray_pv.ts_ground, …)`
and `vf_pvrow_to_pvrow(pvarray_albedo.ts_pvrows, …)`, then
`vf_matrix[:-1, -1] = 1 - sum(vf_matrix[:-1, :-1], axis=1)`, and finally
`vf_matrix[i, -1] = where(length_i > DISTANCE_TOLERANCE, vf_matrix[i, -1], 0)`
for each surface `i` of `pvarray_pv.all_ts_surfaces`. -/
def build_ts_vf_matrix_albedo {G R : Type}
    (vf_pvrow_gnd_surf : R → G → Bool → VFMat → VFMat)
    (vf_pvrow_to_pvrow : R → Bool → VFMat → VFMat)
    (pvarray_pv pvarray_albedo : OrderedPVArrayE G R) : VFMat :=
  let tilted_to_left : Bool := decide (0 < pvarray_albedo.rotation_vec)
  let n := pvarray_albedo.n_ts_surfaces
  let m1 := vf_pvrow_gnd_surf pvarray_albedo.ts_pvrows pvarray_pv.ts_ground
      tilted_to_left (fun _ _ => 0)
  let m2 := vf_pvrow_to_pvrow pvarray_albedo.ts_pvrows tilted_to_left m1
  let m3 : VFMat := fun i j =>
    if i < n ∧ j = n then 1 - ∑ k in Finset.range n, m2 i k else m2 i j
  fun i j =>
    if i < pvarray_pv.all_ts_lengths.length ∧ j = n then
      if DISTANCE_TOLERANCE < pvarray_pv.all_ts_lengths.getD i 0 then m3 i j else 0
    else m3 i j

lemma build_entry_real {G R : Type}
    (fillG : R → G → Bool → VFMat → VFMat)
    (fillR : R → Bool → VFMat → VFMat)
    (pv alb : OrderedPVArrayE G R) (i j : ℕ) (hj : j ≠ alb.n_ts_surfaces) :
    build_ts_vf_matrix_albedo fillG fillR pv alb i j
      = fillR alb.ts_pvrows (decide (0 < alb.rotation_vec))
          (fillG alb.ts_pvrows pv.ts_ground (decide (0 < alb.rotation_vec))
            (fun _ _ => 0)) i j := by
  simp only [build_ts_vf_matrix_albedo]
  rw [if_neg (by simp [hj]), if_neg (by simp [hj])]

lemma build_entry_sky {G R : Type}
    (fillG : R → G → Bool → VFMat → VFMat)
    (fillR : R → Bool → VFMat → VFMat)
    (pv alb : OrderedPVArrayE G R) (i : ℕ)
    (hi : i < alb.n_ts_surfaces)
    (hil : i < pv.all_ts_lengths.length)
    (htol : DISTANCE_TOLERANCE < pv.all_ts_lengths.getD i 0) :
    build_ts_vf_matrix_albedo fillG fillR pv alb i alb.n_ts_surfaces
      = 1 - ∑ k in Finset.range alb.n_ts_surfaces,
          fillR alb.ts_pvrows (decide (0 < alb.rotation_vec))
            (fillG alb.ts_pvrows pv.ts_ground (decide (0 < alb.rotation_vec))
              (fun _ _ => 0)) i k := by
  simp only [build_ts_vf_matrix_albedo]
  rw [if_pos ⟨hil, trivial⟩, if_pos htol, if_pos ⟨hi, trivial⟩]

lemma build_entry_sky_degenerate {G R : Type}
    (fillG : R → G → Bool → VFMat → VFMat)
    (fillR : R → Bool → VFMat → VFMat)
    (pv alb : OrderedPVArrayE G R) (i : ℕ)
    (hil : i < pv.all_ts_lengths.length)
    (htol : pv.all_ts_lengths.getD i 0 ≤ DISTANCE_TOLERANCE) :
    build_ts_vf_matrix_albedo fillG fillR pv alb i alb.n_ts_surfaces = 0 := by
  simp only [build_ts_vf_matrix_albedo]
  rw [if_pos ⟨hil, trivial⟩, if_neg (not_lt.mpr htol)]

/-- C1 (amended): in `build_ts_vf_matrix_albedo`'s output, every real
surface whose length is above `DISTANCE_TOLERANCE` has its outgoing view
factors over all real surfaces plus the sky summing to 1 (within absolute
tolerance 1e-9; in the exact-arithmetic model the sum is exactly 1), and
every surface whose length is at or below the tolerance has its sky view
factor exactly 0.  The builder does not touch the degenerate surface's
other outgoing view factors (see the counterexample theorem): it only
forces the sky entry to 0. -/
theorem vf_row_conservation {G R : Type}
    (fillG : R → G → Bool → VFMat → VFMat)
    (fillR : R → Bool → VFMat → VFMat)
    (pv alb : OrderedPVArrayE G R)
    (hlen : pv.all_ts_lengths.length = alb.n_ts_surfaces)
    (i : ℕ) (hi : i < alb.n_ts_surfaces) :
    (DISTANCE_TOLERANCE < pv.all_ts_lengths.getD i 0 →
      |(∑ j in Finset.range alb.n_ts_surfaces,
          build_ts_vf_matrix_albedo fillG fillR pv alb i j)
        + build_ts_vf_matrix_albedo fillG fillR pv alb i alb.n_ts_surfaces
        - 1| ≤ 1 / 1000000000)
    ∧ (pv.all_ts_lengths.getD i 0 ≤ DISTANCE_TOLERANCE →
        build_ts_vf_matrix_albedo fillG fillR pv alb i alb.n_ts_surfaces = 0) := by
  constructor
  · intro htol
    have hsum : ∑ j in Finset.range alb.n_ts_surfaces,
        build_ts_vf_matrix_albedo fillG fillR pv alb i j
        = ∑ j in Finset.range alb.n_ts_surfaces,
            fillR alb.ts_pvrows (decide (0 < alb.rotation_vec))
              (fillG alb.ts_pvrows pv.ts_ground (decide (0 < alb.rotation_vec))
                (fun _ _ => 0)) i j := by
      refine Finset.sum_congr rfl (fun j hj => ?_)
      exact build_entry_real fillG fillR pv alb i j
        (Nat.ne_of_lt (Finset.mem_range.mp hj))
    rw [hsum, build_entry_sky fillG fillR pv alb i hi (hlen ▸ hi) htol]
    simp
  · intro htol
    exact build_entry_sky_degenerate fillG fillR pv alb i (hlen ▸ hi) htol

/-- Witness for `vf_row_conservation` at a concrete input: a one-surface
albedometer array with surface length 1 (above tolerance). -/
theorem vf_row_conservation_witness :
    ([(1 : ℚ)].length = 1) ∧ (0 < 1) ∧
    ((DISTANCE_TOLERANCE < [(1 : ℚ)].getD 0 0 →
      |(∑ j in Finset.range 1,
          build_ts_vf_matrix_albedo (fun _ _ _ m => m) (fun _ _ m => m)
            (⟨1, 0, (), (), [(1 : ℚ)]⟩ : OrderedPVArrayE Unit Unit)
            (⟨1, 0, (), (), [(1 : ℚ)]⟩ : OrderedPVArrayE Unit Unit) 0 j)
        + build_ts_vf_matrix_albedo (fun _ _ _ m => m) (fun _ _ m => m)
            (⟨1, 0, (), (), [(1 : ℚ)]⟩ : OrderedPVArrayE Unit Unit)
            (⟨1, 0, (), (), [(1 : ℚ)]⟩ : OrderedPVArrayE Unit Unit) 0 1
        - 1| ≤ 1 / 1000000000)
    ∧ ([(1 : ℚ)].getD 0 0 ≤ DISTANCE_TOLERANCE →
        build_ts_vf_matrix_albedo (fun _ _ _ m => m) (fun _ _ m => m)
          (⟨1, 0, (), (), [(1 : ℚ)]⟩ : OrderedPVArrayE Unit Unit)
          (⟨1, 0, (), (), [(1 : ℚ)]⟩ : OrderedPVArrayE Unit Unit) 0 1 = 0)) :=
  ⟨by decide, by decide,
    vf_row_conservation (fun _ _ _ m => m) (fun _ _ m => m)
      ⟨1, 0, (), (), [(1 : ℚ)]⟩ ⟨1, 0, (), (), [(1 : ℚ)]⟩ (by decide) 0 (by decide)⟩

/-- C1 counterexample: the original claim additionally asserts that a
surface at or below the tolerance has ALL of its outgoing view factors
forced to 0; the builder only forces the sky entry.  Here surface 0 has
length 0 (degenerate), yet its outgoing view factor to surface 1 — as
populated by the (abstractly modelled) geometry engine — survives with
value 1/2. -/
theorem vf_zero_length_keeps_engine_entries :
    ([(0 : ℚ), 1].getD 0 0 ≤ DISTANCE_TOLERANCE)
    ∧ build_ts_vf_matrix_albedo
        (fun _ _ _ m => fun i j => if i = 0 ∧ j = 1 then 1/2 else m i j)
        (fun _ _ m => m)
        (⟨2, 0, (), (), [(0 : ℚ), 1]⟩ : OrderedPVArrayE Unit Unit)
        (⟨2, 0, (), (), [(0 : ℚ), 1]⟩ : OrderedPVArrayE Unit Unit) 0 1 = 1/2 := by
  constructor
  · norm_num [DISTANCE_TOLERANCE]
  · rw [build_entry_real _ _ _ _ 0 1 (by decide)]
    norm_num

/-- C6: `build_ts_vf_matrix_albedo` starts from a zero-initialised
matrix whose sky index is `N = pvarray_albedo.n_ts_surfaces` (the sensor
configuration's surface count), and populates the PV-row-to-ground and
ground-to-PV-row entries by handing the sensor array's row surfaces, the
PV-row array's ground surfaces, and the current tilt direction
(`rotation_vec > 0`) to the engine's fill methods: (a) away from the sky
column the output is exactly the two fills applied, in order, to the
zero matrix with those arguments; (b) with identity fills (no engine
contribution) every non-sky-column entry is 0, exhibiting the
zero-initialised allocation; (c) with identity fills and all surface
lengths above tolerance, each real row's sky entry — at column `N` — is
1, exhibiting the `(N+1)`-st column as the sky slot. -/
theorem build_matrix_structure {G R : Type}
    (fillG : R → G → Bool → VFMat → VFMat)
    (fillR : R → Bool → VFMat → VFMat)
    (pv alb : OrderedPVArrayE G R) :
    (∀ i j, j ≠ alb.n_ts_surfaces →
        build_ts_vf_matrix_albedo fillG fillR pv alb i j
          = fillR alb.ts_pvrows (decide (0 < alb.rotation_vec))
              (fillG alb.ts_pvrows pv.ts_ground (decide (0 < alb.rotation_vec))
                (fun _ _ => 0)) i j)
    ∧ (∀ i j, j ≠ alb.n_ts_surfaces →
        build_ts_vf_matrix_albedo (fun _ _ _ m => m) (fun _ _ m => m)
          pv alb i j = 0)
    ∧ (∀ i, i < alb.n_ts_surfaces →
        (∀ x ∈ pv.all_ts_lengths, DISTANCE_TOLERANCE < x) →
        build_ts_vf_matrix_albedo (fun _ _ _ m => m) (fun _ _ m => m)
          pv alb i alb.n_ts_surfaces = 1) := by
  refine ⟨fun i j hj => build_entry_real fillG fillR pv alb i j hj, ?_, ?_⟩
  · intro i j hj
    rw [build_entry_real (fun _ _ _ m => m) (fun _ _ m => m) pv alb i j hj]
  · intro i hi htol
    by_cases hil : i < pv.all_ts_lengths.length
    · have hgd : DISTANCE_TOLERANCE < pv.all_ts_lengths.getD i 0 := by
        rw [List.getD_eq_getElem pv.all_ts_lengths 0 hil]
        exact htol _ (List.getElem_mem hil)
      rw [build_entry_sky (fun _ _ _ m => m) (fun _ _ m => m) pv alb i hi hil hgd]
      simp
    · simp only [build_ts_vf_matrix_albedo]
      rw [if_neg (by simp [hil]), if_pos ⟨hi, trivial⟩]
      simp

/-- Witness for `build_matrix_structure` at a concrete input: an engine
fill writing 1/4 into entry (0,0) survives unchanged in the output. -/
theorem build_matrix_structure_witness :
    build_ts_vf_matrix_albedo
        (fun _ _ _ m => fun i j => if i = 0 ∧ j = 0 then m i j + 1/4 else m i j)
        (fun _ _ m => m)
        (⟨2, 1, (), (), [(1 : ℚ), 1]⟩ : OrderedPVArrayE Unit Unit)
        (⟨2, 1, (), (), [(1 : ℚ), 1]⟩ : OrderedPVArrayE Unit Unit) 0 0 = 1/4 := by
  rw [(build_matrix_structure
        (fun _ _ _ m => fun i j => if i = 0 ∧ j = 0 then m i j + 1/4 else m i j)
        (fun _ _ m => m)
        (⟨2, 1, (), (), [(1 : ℚ), 1]⟩ : OrderedPVArrayE Unit Unit)
        (⟨2, 1, (), (), [(1 : ℚ), 1]⟩ : OrderedPVArrayE Unit Unit)).1 0 0 (by decide)]
  norm_num

/-! ### Reflectance-weighted irradiance ratio R (`calculateAlbedo`, inner loop)

The source loops `for i in range(107)`, reading
`G = spectrum['poa_global'][i+2][0]`, `R = R_lamda_array[i]` and
`delta = wavelength[i+3] - wavelength[i+2]`, accumulating
`sum_R_G += G*R*delta` and `sum_G += G*delta`; then `R = 0` if
`sum_G == 0` else `sum_R_G / sum_G`.  Spectra and the reflectance curve
are modelled as index-to-value functions. -/

/-- The accumulation loop over the 107 wavelength bands (310–2800 nm;
positional offset 2 skips the 300 nm and 305 nm bands), returning
`(sum_R_G, sum_G)`. -/
def spectralSums (poa refl wl : ℕ → ℚ) : ℚ × ℚ :=
  (List.range 107).foldl
    (fun acc i =>
      (acc.1 + poa (i + 2) * refl i * (wl (i + 3) - wl (i + 2)),
       acc.2 + poa (i + 2) * (wl (i + 3) - wl (i + 2))))
    (0, 0)

/-- `R = sum_R_G / sum_G`, with the `sum_G == 0` guard of the source. -/
def Rvalue (poa refl wl : ℕ → ℚ) : ℚ :=
  if (spectralSums poa refl wl).2 = 0 then 0
  else (spectralSums poa refl wl).1 / (spectralSums poa refl wl).2

lemma foldl_pair_sum (f g : ℕ → ℚ) (l : List ℕ) :
    ∀ a b : ℚ,
      l.foldl (fun acc i => (acc.1 + f i, acc.2 + g i)) (a, b)
        = (a + (l.map f).sum, b + (l.map g).sum) := by
  induction l with
  | nil => intro a b; simp
  | cons i l ih => intro a b; simp [ih, add_assoc]

lemma spectralSums_eq (poa refl wl : ℕ → ℚ) :
    spectralSums poa refl wl
      = (∑ i in Finset.range 107, poa (i + 2) * refl i * (wl (i + 3) - wl (i + 2)),
         ∑ i in Finset.range 107, poa (i + 2) * (wl (i + 3) - wl (i + 2))) := by
  rw [spectralSums, foldl_pair_sum, zero_add, zero_add]
  rfl

/-- C2: the reflectance-weighted irradiance ratio is computed over the
fixed 310–2800 nm sub-range: the accumulated pair `(sum_R_G, sum_G)`
equals the sums over the 107 bands at positional offset 2 (skipping the
300 nm and 305 nm bands) of `G_i · reflectance_i · Δλ_i` resp.
`G_i · Δλ_i`, with `Δλ_i = wavelength[i+3] − wavelength[i+2]` the
spacing of consecutive bands at the same offset; `R = sum_R_G / sum_G`
when `sum_G ≠ 0`, and `R = 0` exactly when `sum_G = 0`. -/
theorem R_spectral_integration (poa refl wl : ℕ → ℚ) :
    spectralSums poa refl wl
      = (∑ i in Finset.range 107, poa (i + 2) * refl i * (wl (i + 3) - wl (i + 2)),
         ∑ i in Finset.range 107, poa (i + 2) * (wl (i + 3) - wl (i + 2)))
    ∧ ((spectralSums poa refl wl).2 = 0 → Rvalue poa refl wl = 0)
    ∧ ((spectralSums poa refl wl).2 ≠ 0 →
        Rvalue poa refl wl
          = (spectralSums poa refl wl).1 / (spectralSums poa refl wl).2) := by
  refine ⟨spectralSums_eq poa refl wl, fun h => ?_, fun h => ?_⟩
  · rw [Rvalue, if_pos h]
  · rw [Rvalue, if_neg h]

/-- Witness for `R_spectral_integration` with an identically dark
spectrum: `sum_G = 0`, hence `R = 0`. -/
theorem R_spectral_integration_witness :
    (spectralSums (fun _ => 0) (fun _ => 0) (fun _ => 0)).2 = 0
    ∧ Rvalue (fun _ => 0) (fun _ => 0) (fun _ => 0) = 0 := by
  have h := (R_spectral_integration (fun _ => 0) (fun _ => 0) (fun _ => 0)).2.1
  have h2 : (spectralSums (fun _ => 0) (fun _ => 0) (fun _ => 0)).2 = 0 := by
    rw [(R_spectral_integration (fun _ => 0) (fun _ => 0) (fun _ => 0)).1]
    simp
  exact ⟨h2, h h2⟩

/-! ### Direct/diffuse ratio H and the hourly albedo (`calculateAlbedo`)

The source computes `theta = math.radians(df['zenith'])`, clamps it to 0
when `theta > 0.5*math.pi`, sets `H = 0` when `DHI == 0` and otherwise
`H = (DNI/DHI) * math.cos(theta)`; the view factors are extracted from
the matrix (or overridden to 0 when `GHI == 0`) and combined into
`a = R * (VF_s_a1 + (1/(H+1)) * VF_s_a2)`.  Weather quantities are ℚ;
the trigonometry lives in ℝ. -/

/-- `math.radians` applied to the zenith angle in degrees. -/
noncomputable def thetaOf (zenithDeg : ℚ) : ℝ := (zenithDeg : ℝ) * Real.pi / 180

/-- The zenith angle in radians, clamped to 0 when it exceeds 90°
(`if theta > 0.5*math.pi: theta = 0`). -/
noncomputable def thetaClamped (zenithDeg : ℚ) : ℝ :=
  if Real.pi / 2 < thetaOf zenithDeg then 0 else thetaOf zenithDeg

/-- `H = 0` if `DHI == 0`, else `H = (DNI/DHI) * cos(theta)`. -/
noncomputable def Hvalue (dni dhi zenithDeg : ℚ) : ℝ :=
  if dhi = 0 then 0 else ((dni : ℝ) / (dhi : ℝ)) * Real.cos (thetaClamped zenithDeg)

/-- `a = R * (VF_s_a1 + (1/(H+1)) * VF_s_a2)`. -/
noncomputable def albedoValue (R : ℚ) (H : ℝ) (VF_s_a1 VF_s_a2 : ℚ) : ℝ :=
  (R : ℝ) * ((VF_s_a1 : ℝ) + (1 / (H + 1)) * (VF_s_a2 : ℝ))

/-- The per-hour inputs that one iteration of `calculateAlbedo`'s loop
reads: the spectral sample of the hour, the weather row's `dni`, `dhi`,
`zenith` and `ghi` columns, and the view-factor matrix built for the
hour (built unconditionally, before the `GHI == 0` check). -/
structure HourInput where
  poa_global : ℕ → ℚ
  wavelength : ℕ → ℚ
  dni : ℚ
  dhi : ℚ
  zenith : ℚ
  ghi : ℚ
  vf_matrix : ℕ → ℕ → ℚ

/-- The quantities one loop iteration appends to the hourly arrays. -/
structure HourRecord where
  R : ℚ
  H : ℝ
  VF_8_2 : ℚ
  VF_8_4 : ℚ
  VF_8_5 : ℚ
  VF_s_a1 : ℚ
  VF_s_a2 : ℚ
  albedo : ℝ

/-- One iteration of the `for j in range(timedelta)` loop body of
`calculateAlbedo`: R from the spectral integration, H from the
direct/diffuse policy, view factors extracted from the matrix at the
fixed indices `(8,2)`, `(8,4)`, `(8,5)` and `(8,0)` — all overridden to
0 when the hour's GHI is 0 — and the final albedo. -/
noncomputable def computeHour (refl : ℕ → ℚ) (h : HourInput) : HourRecord :=
  let R := Rvalue h.poa_global refl h.wavelength
  let H := Hvalue h.dni h.dhi h.zenith
  let VF_8_2 : ℚ := if h.ghi = 0 then 0 else h.vf_matrix 8 2
  let VF_8_4 : ℚ := if h.ghi = 0 then 0 else h.vf_matrix 8 4
  let VF_8_5 : ℚ := if h.ghi = 0 then 0 else h.vf_matrix 8 5
  let VF_s_a1 : ℚ := if h.ghi = 0 then 0 else VF_8_4 + VF_8_5 + VF_8_2
  let VF_s_a2 : ℚ := if h.ghi = 0 then 0 else h.vf_matrix 8 0
  { R := R, H := H, VF_8_2 := VF_8_2, VF_8_4 := VF_8_4, VF_8_5 := VF_8_5,
    VF_s_a1 := VF_s_a1, VF_s_a2 := VF_s_a2,
    albedo := albedoValue R H VF_s_a1 VF_s_a2 }

lemma theta_gt_iff (z : ℚ) : Real.pi / 2 < thetaOf z ↔ 90 < z := by
  rw [thetaOf]
  rw [show (z : ℝ) * Real.pi / 180 = Real.pi * ((z : ℝ) / 180) by ring,
      show Real.pi / 2 = Real.pi * (1 / 2) by ring]
  rw [mul_lt_mul_left Real.pi_pos]
  constructor
  · intro h
    have h90 : (90 : ℝ) < (z : ℝ) := by
      linarith [(div_lt_div_iff₀ (by norm_num : (0:ℝ) < 2)
        (by norm_num : (0:ℝ) < 180)).mp h]
    exact_mod_cast h90
  · intro h
    have h90 : (90 : ℝ) < (z : ℝ) := by exact_mod_cast h
    rw [div_lt_div_iff₀] <;> norm_num
    linarith

/-- C3: for every hour, `H = (DNI/DHI) · cos(θz)` with `θz` the zenith
angle in radians clamped to 0 whenever it exceeds 90°, and `H = 0`
exactly (and DNI is never divided by DHI) whenever `DHI = 0`. -/
theorem H_policy (refl : ℕ → ℚ) (h : HourInput) :
    (h.dhi = 0 → (computeHour refl h).H = 0)
    ∧ (h.dhi ≠ 0 → (computeHour refl h).H
        = ((h.dni : ℝ) / (h.dhi : ℝ)) * Real.cos (thetaClamped h.zenith))
    ∧ (90 < h.zenith → thetaClamped h.zenith = 0)
    ∧ (¬ 90 < h.zenith → thetaClamped h.zenith = thetaOf h.zenith) := by
  have hH : (computeHour refl h).H = Hvalue h.dni h.dhi h.zenith := rfl
  refine ⟨fun h0 => ?_, fun h0 => ?_, fun h90 => ?_, fun h90 => ?_⟩
  · rw [hH, Hvalue, if_pos h0]
  · rw [hH, Hvalue, if_neg h0]
  · rw [thetaClamped, if_pos ((theta_gt_iff h.zenith).mpr h90)]
  · rw [thetaClamped, if_neg (fun hc => h90 ((theta_gt_iff h.zenith).mp hc))]

/-- Witness for `H_policy` at a concrete night-time hour with
`DHI = 0` and raw zenith 120° (beyond 90°). -/
theorem H_policy_witness :
    (computeHour (fun _ => 0)
        ⟨fun _ => 0, fun _ => 0, 0, 0, 120, 0, fun _ _ => 0⟩).H = 0
    ∧ thetaClamped 120 = 0 :=
  ⟨(H_policy (fun _ => 0) ⟨fun _ => 0, fun _ => 0, 0, 0, 120, 0, fun _ _ => 0⟩).1 rfl,
   (H_policy (fun _ => 0) ⟨fun _ => 0, fun _ => 0, 0, 0, 120, 0, fun _ _ => 0⟩).2.2.1
     (by norm_num)⟩

/-- C4: for every hour, the recorded albedo equals
`R · (VF_s_a1 + VF_s_a2 / (H + 1))`, and whenever `DNI = 0` one has
`H = 0` and `albedo = R · (VF_s_a1 + VF_s_a2)`. -/
theorem albedo_formula (refl : ℕ → ℚ) (h : HourInput) :
    ((computeHour refl h).albedo
      = ((computeHour refl h).R : ℝ)
        * (((computeHour refl h).VF_s_a1 : ℝ)
           + ((computeHour refl h).VF_s_a2 : ℝ) / ((computeHour refl h).H + 1)))
    ∧ (h.dni = 0 → (computeHour refl h).H = 0
        ∧ (computeHour refl h).albedo
          = ((computeHour refl h).R : ℝ)
            * (((computeHour refl h).VF_s_a1 : ℝ)
               + ((computeHour refl h).VF_s_a2 : ℝ))) := by
  have halb : (computeHour refl h).albedo
      = albedoValue (computeHour refl h).R (computeHour refl h).H
          (computeHour refl h).VF_s_a1 (computeHour refl h).VF_s_a2 := rfl
  have hH : (computeHour refl h).H = Hvalue h.dni h.dhi h.zenith := rfl
  constructor
  · rw [halb, albedoValue]; ring
  · intro hdni
    have hH0 : (computeHour refl h).H = 0 := by
      rw [hH, Hvalue]
      by_cases hd : h.dhi = 0
      · rw [if_pos hd]
      · rw [if_neg hd, hdni]
        norm_num
    refine ⟨hH0, ?_⟩
    rw [halb, hH0, albedoValue]
    norm_num

/-- Witness for `albedo_formula` at a concrete hour with `DNI = 0`. -/
theorem albedo_formula_witness :
    (computeHour (fun _ => 0)
        ⟨fun _ => 0, fun _ => 0, 0, 200, 30, 500, fun _ _ => 0⟩).H = 0
    ∧ (computeHour (fun _ => 0)
        ⟨fun _ => 0, fun _ => 0, 0, 200, 30, 500, fun _ _ => 0⟩).albedo
      = ((computeHour (fun _ => 0)
            ⟨fun _ => 0, fun _ => 0, 0, 200, 30, 500, fun _ _ => 0⟩).R : ℝ)
        * (((computeHour (fun _ => 0)
              ⟨fun _ => 0, fun _ => 0, 0, 200, 30, 500, fun _ _ => 0⟩).VF_s_a1 : ℝ)
           + ((computeHour (fun _ => 0)
              ⟨fun _ => 0, fun _ => 0, 0, 200, 30, 500, fun _ _ => 0⟩).VF_s_a2 : ℝ)) :=
  (albedo_formula (fun _ => 0)
    ⟨fun _ => 0, fun _ => 0, 0, 200, 30, 500, fun _ _ => 0⟩).2 rfl

/-- C5: for every hour with `GHI = 0`, the partial view factors, the
composite view factors `VF_s_a1` and `VF_s_a2`, and the resulting albedo
are all exactly 0, whatever view-factor matrix was built for the hour
(the matrix is an input of `computeHour`, and the result does not depend
on it here — its outputs are overridden to 0). -/
theorem ghi_zero_albedo (refl : ℕ → ℚ) (h : HourInput) (hghi : h.ghi = 0) :
    (computeHour refl h).VF_8_2 = 0 ∧ (computeHour refl h).VF_8_4 = 0
    ∧ (computeHour refl h).VF_8_5 = 0 ∧ (computeHour refl h).VF_s_a1 = 0
    ∧ (computeHour refl h).VF_s_a2 = 0 ∧ (computeHour refl h).albedo = 0 := by
  refine ⟨?_, ?_, ?_, ?_, ?_, ?_⟩ <;>
    simp [computeHour, hghi, albedoValue]

/-- Witness for `ghi_zero_albedo` at a concrete dark hour whose matrix
nonetheless holds nonzero entries. -/
theorem ghi_zero_albedo_witness :
    (computeHour (fun _ => 0)
        ⟨fun _ => 0, fun _ => 0, 0, 0, 170, 0, fun _ _ => 1/3⟩).albedo = 0 :=
  (ghi_zero_albedo (fun _ => 0)
    ⟨fun _ => 0, fun _ => 0, 0, 0, 170, 0, fun _ _ => 1/3⟩ rfl).2.2.2.2.2

/-- C10 (amended): for every hour whose weather row has `DNI ≥ 0`,
`DHI ≥ 0` and a nonnegative zenith angle, `H ≥ 0` (the clamped angle
then lies in `[0°, 90°]`, so its cosine is nonnegative), hence
`H + 1 ≥ 1` and the division by `H + 1` in the albedo formula is never a
division by zero.  The nonnegative-zenith hypothesis is necessary: the
code clamps only the `> 90°` side (see the counterexample theorem). -/
theorem H_nonneg (refl : ℕ → ℚ) (h : HourInput)
    (hdni : 0 ≤ h.dni) (hdhi : 0 ≤ h.dhi) (hz : 0 ≤ h.zenith) :
    0 ≤ (computeHour refl h).H ∧ 1 ≤ (computeHour refl h).H + 1 := by
  have hH : (computeHour refl h).H = Hvalue h.dni h.dhi h.zenith := rfl
  have hmain : 0 ≤ (computeHour refl h).H := by
    rw [hH, Hvalue]
    by_cases hd : h.dhi = 0
    · rw [if_pos hd]
    · rw [if_neg hd]
      have hdiv : 0 ≤ (h.dni : ℝ) / (h.dhi : ℝ) := by
        apply div_nonneg <;> exact_mod_cast (by assumption)
      refine mul_nonneg hdiv ?_
      rw [thetaClamped]
      by_cases h90 : Real.pi / 2 < thetaOf h.zenith
      · rw [if_pos h90]
        norm_num
      · rw [if_neg h90]
        have hz0 : 0 ≤ thetaOf h.zenith := by
          rw [thetaOf]
          have : (0 : ℝ) ≤ (h.zenith : ℝ) := by exact_mod_cast hz
          positivity
        refine Real.cos_nonneg_of_mem_Icc ⟨?_, not_lt.mp h90⟩
        linarith [Real.pi_pos]
  exact ⟨hmain, by linarith⟩

/-- Witness for `H_nonneg` at a concrete daytime hour. -/
theorem H_nonneg_witness :
    (0 : ℚ) ≤ 800 ∧ (0 : ℚ) ≤ 100 ∧ (0 : ℚ) ≤ 45
    ∧ 0 ≤ (computeHour (fun _ => 0)
        ⟨fun _ => 0, fun _ => 0, 800, 100, 45, 900, fun _ _ => 0⟩).H :=
  ⟨by norm_num, by norm_num, by norm_num,
    (H_nonneg (fun _ => 0)
      ⟨fun _ => 0, fun _ => 0, 800, 100, 45, 900, fun _ _ => 0⟩
      (by norm_num) (by norm_num) (by norm_num)).1⟩

/-- C10 counterexample: the claim as stated quantifies only over
`DNI ≥ 0` and `DHI ≥ 0`; a (nonphysical) weather row with zenith −180°
satisfies both yet produces `H = cos(−π) = −1 < 0`, because the code
clamps the angle only on the `> 90°` side, not into `[0°, 90°]`. -/
theorem H_negative_on_negative_zenith :
    (0 : ℚ) ≤ 1 ∧ (0 : ℚ) ≤ 1
    ∧ (computeHour (fun _ => 0)
        ⟨fun _ => 0, fun _ => 0, 1, 1, -180, 0, fun _ _ => 0⟩).H < 0 := by
  refine ⟨by norm_num, by norm_num, ?_⟩
  have hH : (computeHour (fun _ => 0)
      ⟨fun _ => 0, fun _ => 0, 1, 1, -180, 0, fun _ _ => 0⟩).H
      = Hvalue 1 1 (-180) := rfl
  rw [hH, Hvalue, if_neg (by norm_num), thetaClamped,
      if_neg (fun hc => by
        have := (theta_gt_iff (-180)).mp hc
        norm_num at this)]
  have htheta : thetaOf (-180) = -Real.pi := by
    rw [thetaOf]
    push_cast
    ring
  rw [htheta, Real.cos_neg, Real.cos_pi]
  norm_num

/-! ### Hour loop extent (`calculateAlbedo`, timedelta)

The source builds `dtStart` and `dtEnd` from the `startHour`/`endHour`
4-tuples (both with the same fixed UTC offset, which therefore cancels
in the subtraction), computes
`timedelta = int((dtEnd - dtStart).total_seconds() // 3600) + 1` and
loops `for j in range(timedelta)`, appending exactly one record to each
hourly array per iteration.  Python's `datetime` subtraction is the
exact proleptic-Gregorian wall-clock difference; it is embedded through
the standard civil-calendar day-count. -/

/-- A wall-clock timestamp `(year, month, day, hour)` as used for
`startHour` and `endHour`. -/
structure DateTimeE where
  year : ℤ
  month : ℤ
  day : ℤ
  hour : ℤ

/-- Day count of a proleptic-Gregorian civil date (days since
1970-01-01), the standard civil-from-days inverse used to embed
Python `datetime` subtraction. -/
def daysFromCivil (y m d : ℤ) : ℤ :=
  let y2 := if m ≤ 2 then y - 1 else y
  let era := Int.fdiv y2 400
  let yoe := y2 - era * 400
  let mp := if 2 < m then m - 3 else m + 9
  let doy := (153 * mp + 2) / 5 + d - 1
  let doe := yoe * 365 + yoe / 4 - yoe / 100 + doy
  era * 146097 + doe - 719468

/-- Absolute hour count of a timestamp. -/
def hoursValue (t : DateTimeE) : ℤ :=
  daysFromCivil t.year t.month t.day * 24 + t.hour

/-- `(dtEnd - dtStart).total_seconds() // 3600`: both datetimes carry
the same `utcOffset`, so the offset cancels and the whole-hour
difference is exact. -/
def hoursBetween (s e : DateTimeE) : ℤ := hoursValue e - hoursValue s

/-- `timedelta = int(... // 3600) + 1`, as a loop iteration count
(`range` of a nonpositive number is empty). -/
def numTimesteps (s e : DateTimeE) : ℕ := (hoursBetween s e + 1).toNat

/-- The hourly records produced by `calculateAlbedo`'s loop
`for j in range(timedelta)`: one `computeHour` record per hour index. -/
noncomputable def calculateAlbedoRecords (s e : DateTimeE) (refl : ℕ → ℚ)
    (hours : ℕ → HourInput) : List HourRecord :=
  (List.range (numTimesteps s e)).map (fun j => computeHour refl (hours j))

/-- C7: when `endHour` is not before `startHour`, the loop runs over
`j = 0 … T−1` with `T` the whole-hour difference between the two
endpoints inclusive of both, and exactly `T` hourly records are
produced. -/
theorem records_count (s e : DateTimeE) (refl : ℕ → ℚ) (hours : ℕ → HourInput)
    (hse : 0 ≤ hoursBetween s e) :
    (calculateAlbedoRecords s e refl hours).length = (hoursBetween s e).toNat + 1 := by
  rw [calculateAlbedoRecords, List.length_map, List.length_range, numTimesteps]
  omega

/-- Witness for `records_count` on the spec's scenario:
`startHour = (2019,11,1,0)`, `endHour = (2019,11,1,3)` produce exactly
4 records. -/
theorem records_count_witness :
    0 ≤ hoursBetween ⟨2019, 11, 1, 0⟩ ⟨2019, 11, 1, 3⟩
    ∧ (calculateAlbedoRecords ⟨2019, 11, 1, 0⟩ ⟨2019, 11, 1, 3⟩ (fun _ => 0)
        (fun _ => ⟨fun _ => 0, fun _ => 0, 0, 0, 0, 0, fun _ _ => 0⟩)).length = 4 := by
  refine ⟨by decide, ?_⟩
  rw [records_count _ _ _ _ (by decide)]
  decide

/-! ### Weather-file merge (`calculateAlbedo`, final block)

The source reads the first two rows of the weather file with
`csv.reader`, loads the table with `pd.read_csv(..., header=1)`, pads
`a_hourly` with `math.nan` up to the table's row count when it is
shorter, assigns `weatherfile['Alb'] = a_hourly` (a pandas column
assignment, which requires the two lengths to be equal and otherwise
raises — the spec's `AlignmentError`), and finally re-opens the original
path with `open(weatherFile, 'w+')` and writes the two header rows
followed by the table rows. -/

/-- The padding step: append the missing-value sentinel until the
records match the weather rows (only when the records are fewer). -/
def padAlbedo {α : Type} (sentinel : α) (records : List α) (nrows : ℕ) : List α :=
  if records.length < nrows then
    records ++ List.replicate (nrows - records.length) sentinel
  else records

/-- The column splice: pad, then assign; the equal-length requirement of
the pandas column assignment is the error path. -/
def mergeAlbedoColumn {α : Type} (sentinel : α) (records : List α) (nrows : ℕ) :
    Except String (List α) :=
  let padded := padAlbedo sentinel records nrows
  if padded.length = nrows then Except.ok padded else Except.error "AlignmentError"

lemma mergeAlbedoColumn_ok_length {α : Type} {sentinel : α} {records : List α}
    {nrows : ℕ} {padded : List α}
    (h : mergeAlbedoColumn sentinel records nrows = Except.ok padded) :
    padded.length = nrows := by
  by_cases hc : (padAlbedo sentinel records nrows).length = nrows
  · simp only [mergeAlbedoColumn] at h
    rw [if_pos hc] at h
    cases h
    exact hc
  · simp only [mergeAlbedoColumn] at h
    rw [if_neg hc] at h
    cases h

/-- The full merge: splice the (padded) albedo column into the table at
the albedo column index, and emit the two preserved header rows followed
by the table rows in their original order. -/
def mergeWeatherFile {α : Type} (sentinel : α) (row1 row2 : List α)
    (table : List (List α)) (albIdx : ℕ) (records : List α) :
    Except String (List (List α)) :=
  match mergeAlbedoColumn sentinel records table.length with
  | Except.error e => Except.error e
  | Except.ok padded =>
      Except.ok (row1 :: row2 :: (table.zip padded).map (fun p => p.1.set albIdx p.2))

/-- C8: if the records are fewer than the weather rows, the albedo
column is padded with the missing sentinel so the lengths match exactly:
the result keeps the records as its prefix (nothing truncated, the row
count is exactly the weather row count) and its padded tail consists
exclusively of the sentinel, with length exactly the difference; if the
records exceed the rows, the merge is an `AlignmentError` instead of
silently dropping the excess. -/
theorem merge_padding {α : Type} (sentinel : α) (records : List α) (nrows : ℕ) :
    (records.length < nrows →
      mergeAlbedoColumn sentinel records nrows
        = Except.ok (records ++ List.replicate (nrows - records.length) sentinel)
      ∧ (records ++ List.replicate (nrows - records.length) sentinel).length = nrows
      ∧ (records ++ List.replicate (nrows - records.length) sentinel).take
          records.length = records
      ∧ (records ++ List.replicate (nrows - records.length) sentinel).drop
          records.length = List.replicate (nrows - records.length) sentinel)
    ∧ (nrows < records.length →
        mergeAlbedoColumn sentinel records nrows = Except.error "AlignmentError") := by
  constructor
  · intro hlt
    have hpad : padAlbedo sentinel records nrows
        = records ++ List.replicate (nrows - records.length) sentinel := by
      rw [padAlbedo, if_pos hlt]
    have hlen : (records ++ List.replicate (nrows - records.length) sentinel).length
        = nrows := by
      rw [List.length_append, List.length_replicate]
      omega
    refine ⟨?_, hlen, ?_, ?_⟩
    · rw [mergeAlbedoColumn]
      rw [hpad, if_pos hlen]
    · simp
    · simp
  · intro hgt
    have hpad : padAlbedo sentinel records nrows = records := by
      rw [padAlbedo, if_neg (by omega)]
    rw [mergeAlbedoColumn, hpad, if_neg (by omega)]

/-- Witness for `merge_padding`: one record against three weather rows
pads with two sentinels. -/
theorem merge_padding_witness :
    (["0.2"].length < 3)
    ∧ mergeAlbedoColumn "nan" ["0.2"] 3
        = Except.ok (["0.2"] ++ List.replicate (3 - ["0.2"].length) "nan")
    ∧ (["0.2"] ++ List.replicate (3 - ["0.2"].length) "nan").drop ["0.2"].length
        = List.replicate (3 - ["0.2"].length) "nan" :=
  ⟨by decide, ((merge_padding "nan" ["0.2"] 3).1 (by decide)).1,
   ((merge_padding "nan" ["0.2"] 3).1 (by decide)).2.2.2⟩

/-- File-system operations performed by the merge block, in order. -/
inductive FileOp where
  | readRows (path : String)
  | openWrite (path : String)
  | writeRows (path : String)
  | renameFile (src dst : String)
deriving DecidableEq

/-- Discriminator for rename/replace operations. -/
def FileOp.isRenameFile : FileOp → Bool
  | FileOp.renameFile _ _ => true
  | _ => false

/-- The file operations of the merge block, in source order: read the
two header rows, read the table, open the ORIGINAL weather file itself
with mode `w+` (truncating it in place), and write the rows into it. -/
def mergeFileTrace (weatherFile : String) : List FileOp :=
  [FileOp.readRows weatherFile,
   FileOp.readRows weatherFile,
   FileOp.openWrite weatherFile,
   FileOp.writeRows weatherFile]

/-- Modelled from the spec's words for the C9 atomicity guarantee: an
all-or-nothing rewrite scopes its write to a temporary location and then
replaces the original, i.e. it never opens the original path itself for
writing and produces it only through a rename of some other path. -/
def atomicReplaceRewrite (trace : List FileOp) (target : String) : Prop :=
  FileOp.openWrite target ∉ trace
  ∧ ∃ tmp, tmp ≠ target ∧ FileOp.renameFile tmp target ∈ trace

/-- C9 counterexample: the merge opens the original weather file itself
for writing (truncating it) and performs no rename at all, so the
rewrite is not the claimed write-to-temporary-then-replace; a failure
mid-write can leave a partial file behind. -/
theorem merge_not_atomic :
    ¬ atomicReplaceRewrite (mergeFileTrace "weather.csv") "weather.csv" := by
  intro hA
  exact hA.1 (by simp [mergeFileTrace])

/-- C9 (amended): the merge preserves the original file's first two
header rows at the top of the rewritten file (the tabular rows follow,
one per original weather row), but the rewrite is performed in place:
the original path itself is opened for writing and no
temporary-location/replace step exists, so the all-or-nothing guarantee
does not hold. -/
theorem merge_headers_preserved {α : Type} (sentinel : α) (row1 row2 : List α)
    (table : List (List α)) (albIdx : ℕ) (records : List α) (out : List (List α))
    (hok : mergeWeatherFile sentinel row1 row2 table albIdx records
      = Except.ok out) :
    out.take 2 = [row1, row2]
    ∧ out.length = table.length + 2
    ∧ (∀ p : String, FileOp.openWrite p ∈ mergeFileTrace p
        ∧ (mergeFileTrace p).all (fun op => ! op.isRenameFile) = true) := by
  rw [mergeWeatherFile] at hok
  rcases hcol : mergeAlbedoColumn sentinel records table.length with e | padded
  · rw [hcol] at hok
    cases hok
  · rw [hcol] at hok
    have hout : out = row1 :: row2
        :: (table.zip padded).map (fun p => p.1.set albIdx p.2) := by
      cases hok
      rfl
    refine ⟨by simp [hout], ?_, ?_⟩
    · rw [hout]
      simp [List.length_zip, mergeAlbedoColumn_ok_length hcol]
    · intro p
      exact ⟨by simp [mergeFileTrace], by simp [mergeFileTrace, FileOp.isRenameFile]⟩

/-- Witness for `merge_headers_preserved` at a concrete merge: one data
row, albedo column index 1. -/
theorem merge_headers_preserved_witness :
    mergeWeatherFile "nan" ["lat"] ["50"] [["x", "0"]] 1 ["0.2"]
        = Except.ok [["lat"], ["50"], ["x", "0.2"]]
    ∧ [["lat"], ["50"], ["x", "0.2"]].take 2 = [["lat"], ["50"]] :=
  ⟨by rfl,
    (merge_headers_preserved "nan" ["lat"] ["50"] [["x", "0"]] 1 ["0.2"]
      [["lat"], ["50"], ["x", "0.2"]] (by rfl)).1⟩

end SpectralAlbedo
